import Mathlib

/-!
Verification of the ArduinOS core (src/arduinOS.ino) against its
natural-language specification.

The development shallowly embeds the relevant parts of the firmware:
the desktop window registry (deskOpenWindow / deskCloseWindow /
deskBringToFront, lines 3426-3547), the drag and resize clamping
(lines 5933-5955), the frame-buffer manager (initDoubleBuffer /
flushBuffer, lines 159-228, and the gfx fallback of deskFullRedraw,
lines 5367-5374), the SD-card hot-swap supervision (lines 1351-1399),
the SET+RST screenshot chord (lines 1447-1476) and the two
button-debounce machines (game input, lines 1653-1727, and UP/DOWN
navigation, lines 1999-2053).

Machine integers are modelled as Int / Nat (all quantities involved
stay far from the int16_t / unsigned-long bounds on the traced inputs:
coordinates are clamped to the 240x135 screen and times are
milliseconds since boot, so C arithmetic coincides with the
mathematical one).  The fixed 15-entry arrays `deskWins[]` and
`deskWinOrder[]` are modelled as a 15-element list and as the live
prefix `deskWinOrder[0 .. deskWinCount-1]` (a list whose length is
`deskWinCount`); the array loops of the source shift exactly this
prefix, so `insert at front`, `erase first occurrence` and
`move position i to the front` are their exact meaning.
-/

namespace ArduinOS

/-- Screen dimensions (landscape): #define SCREEN_WIDTH 240 (line 149). -/
def SCREEN_WIDTH : Int := 240

/-- Screen dimensions: #define SCREEN_HEIGHT 135 (line 150). -/
def SCREEN_HEIGHT : Int := 135

/-- Window pool capacity: #define MAX_DESK_WINDOWS 15 (line 992). -/
def MAX_DESK_WINDOWS : Nat := 15

/-- One window record, struct DeskWindow (lines 993-1001).  The C field
`open` is called `isOpen` here because `open` is a Lean keyword. -/
structure DeskWindow where
  isOpen : Bool
  x : Int
  y : Int
  w : Int
  h : Int
  minW : Int
  minH : Int
  appType : Nat
  maximized : Bool
  fullscreen : Bool
  title : String
deriving DecidableEq, Repr

/-- Zero-initialised window record (global arrays in C start zeroed:
open = false, all geometry 0, empty title). -/
instance : Inhabited DeskWindow :=
  ⟨{ isOpen := false, x := 0, y := 0, w := 0, h := 0, minW := 0, minH := 0,
     appType := 0, maximized := false, fullscreen := false, title := "" }⟩

/-- The window-registry state: deskWins[MAX_DESK_WINDOWS] (line 1002),
the live prefix of deskWinOrder (line 1003, index 0 = top; its length is
deskWinCount, line 1004) and activeWin (line 1005; the C sentinel -1 is
modelled as none). -/
structure DeskState where
  deskWins : List DeskWindow
  deskWinOrder : List Nat
  activeWin : Option Nat
deriving DecidableEq, Repr

/-- Boot state: all records zeroed (not open), no z-order entries
(deskWinCount = 0), activeWin = -1. -/
def deskInit : DeskState :=
  { deskWins := List.replicate MAX_DESK_WINDOWS default
    deskWinOrder := []
    activeWin := none }

/-- The free-slot scan of deskOpenWindow (lines 3439-3442):
for (i = 0; i < MAX_DESK_WINDOWS; i++) if (!deskWins[i].open) { slot = i; break; } -/
def findFreeSlotFrom : List DeskWindow → Nat → Option Nat
  | [], _ => none
  | w :: ws, i => if !w.isOpen then some i else findFreeSlotFrom ws (i + 1)

/-- Slot of the first non-open window record, none if the pool is full. -/
def findFreeSlot (wins : List DeskWindow) : Option Nat :=
  findFreeSlotFrom wins 0

/-- The per-appType default size table of deskOpenWindow
(switch (appType), lines 3454-3497), as (w, h, minW, minH). -/
def deskDefaultGeom : Nat → Int × Int × Int × Int
  | 0 => (85, 70, 70, 60)      -- Settings
  | 1 => (95, 85, 95, 85)      -- Calc
  | 2 => (90, 65, 80, 55)      -- Timer
  | 3 => (85, 60, 70, 50)      -- TODO
  | 4 => (130, 100, 120, 90)   -- Notes
  | 5 => (85, 55, 70, 45)      -- Music
  | 6 => (180, 100, 140, 80)   -- Files
  | 7 => (130, 100, 120, 90)   -- Editor
  | 8 => (130, 100, 120, 90)   -- WiFi
  | 9 => (100, 120, 100, 120)  -- Tetris
  | 10 => (120, 100, 100, 80)  -- Paint
  | 11 => (100, 120, 100, 120) -- Snake
  | 12 => (160, 110, 120, 80)  -- Image viewer (opens fullscreen)
  | _ => (80, 50, 50, 30)      -- default

/-- deskOpenWindow (lines 3437-3510): claim the first free slot (return
unchanged if none), fill its record (open, appType, flags, truncated
title, size from the appType table, position 20+(slot*15)%60 /
10+(slot*12)%40), push the slot onto the front of the z-order
(the loop at 3504-3507 shifts the live prefix right by one), increment
deskWinCount and focus the new window.  openedRecord is the record
written into the claimed slot (lines 3445-3501). -/
def openedRecord (appType : Nat) (title : String) (slot : Nat) : DeskWindow :=
  let g := deskDefaultGeom appType
  { isOpen := true
    appType := appType
    maximized := false
    fullscreen := appType == 12
    title := title.take 11
    w := g.1, h := g.2.1, minW := g.2.2.1, minH := g.2.2.2
    x := 20 + ((slot * 15) % 60 : Nat)
    y := 10 + ((slot * 12) % 40 : Nat) }

def deskOpenWindow (s : DeskState) (appType : Nat) (title : String) : DeskState :=
  match findFreeSlot s.deskWins with
  | none => s
  | some slot =>
    { deskWins := s.deskWins.set slot (openedRecord appType title slot)
      deskWinOrder := slot :: s.deskWinOrder
      activeWin := some slot }

/-- deskCloseWindow (lines 3513-3547): return unchanged when winIdx < 0
or the record is not open; otherwise clear the open flag, remove the
first occurrence of winIdx from the live z-order prefix (the scan at
3534-3537 plus the left-shift at 3538-3543), and refocus the new front
element, or clear focus when none remain (line 3546).  (The appType 10
and 12 branches at 3516-3529 reset only app-content state - the Paint
canvas and the BMP viewer - outside the window registry, and are not
modelled.) -/
def deskCloseWindow (s : DeskState) (winIdx : Int) : DeskState :=
  if winIdx < 0 ∨ ¬(s.deskWins.getD winIdx.toNat default).isOpen then s
  else
    { deskWins := s.deskWins.set winIdx.toNat
        { s.deskWins.getD winIdx.toNat default with isOpen := false }
      deskWinOrder := s.deskWinOrder.erase winIdx.toNat
      activeWin := (s.deskWinOrder.erase winIdx.toNat).head? }

/-- deskBringToFront (lines 3426-3434): return unchanged when
orderIdx <= 0; otherwise the loop at 3429-3431 shifts entries
0..orderIdx-1 one step back and entry orderIdx is written to the front
(move-to-front of position orderIdx), and focus is set to that window. -/
def deskBringToFront (s : DeskState) (orderIdx : Int) : DeskState :=
  if orderIdx ≤ 0 then s
  else
    let i := orderIdx.toNat
    let winIdx := s.deskWinOrder.getD i 0
    { s with
      deskWinOrder := winIdx :: s.deskWinOrder.eraseIdx i
      activeWin := some winIdx }

/-- A registry call: deskOpenWindow or deskCloseWindow. -/
inductive DeskOp where
  | openWin (appType : Nat) (title : String)
  | closeWin (winIdx : Int)
deriving DecidableEq, Repr

/-- Run a sequence of open/close calls from the boot state. -/
def deskRun (ops : List DeskOp) : DeskState :=
  ops.foldl
    (fun s op =>
      match op with
      | .openWin a t => deskOpenWindow s a t
      | .closeWin i => deskCloseWindow s i)
    deskInit

/-- Open flag of slot i (false for out-of-pool indices). -/
def winOpen (s : DeskState) (i : Nat) : Bool :=
  (s.deskWins.getD i default).isOpen

/-- The z-order invariant of the spec: the live prefix of deskWinOrder
has no duplicates, contains exactly the slots whose record is open, and
its front element (when deskWinCount > 0) is the focused window.
The record array keeps its fixed 15-slot size. -/
def DeskInvariant (s : DeskState) : Prop :=
  s.deskWins.length = MAX_DESK_WINDOWS ∧
  s.deskWinOrder.Nodup ∧
  (∀ i : Nat, i ∈ s.deskWinOrder ↔ (i < MAX_DESK_WINDOWS ∧ winOpen s i = true)) ∧
  (s.deskWinOrder ≠ [] → s.activeWin = s.deskWinOrder.head?)

/-! Helper lemmas about the list model of the fixed arrays. -/

lemma getD_set_self (l : List DeskWindow) (n : Nat) (a : DeskWindow)
    (h : n < l.length) : (l.set n a).getD n default = a := by
  simp [List.getD, List.getElem?_set_self, h]

lemma getD_set_ne (l : List DeskWindow) (n i : Nat) (a : DeskWindow)
    (h : i ≠ n) : (l.set n a).getD i default = l.getD i default := by
  simp [List.getD]
  rw [List.getElem?_set_ne (Ne.symm h)]

lemma getD_oob (l : List DeskWindow) (i : Nat) (h : l.length ≤ i) :
    l.getD i default = default := by
  simp [List.getD, List.getElem?_eq_none h]

lemma winOpen_eq (s : DeskState) (i : Nat) :
    winOpen s i = (s.deskWins.getD i default).isOpen := rfl

/-- Components of deskOpenWindow when a free slot exists. -/
lemma deskOpenWindow_eq_of_found (s : DeskState) (a : Nat) (t : String)
    (slot : Nat) (hfind : findFreeSlot s.deskWins = some slot) :
    deskOpenWindow s a t =
      { deskWins := s.deskWins.set slot (openedRecord a t slot)
        deskWinOrder := slot :: s.deskWinOrder
        activeWin := some slot } := by
  unfold deskOpenWindow
  rw [hfind]

/-- deskOpenWindow is the identity when the pool is full. -/
lemma deskOpenWindow_eq_of_full (s : DeskState) (a : Nat) (t : String)
    (hfind : findFreeSlot s.deskWins = none) : deskOpenWindow s a t = s := by
  unfold deskOpenWindow
  rw [hfind]

/-- Components of deskCloseWindow when the guard passes. -/
lemma deskCloseWindow_eq_of_open (s : DeskState) (winIdx : Int)
    (h0 : 0 ≤ winIdx)
    (hopen : (s.deskWins.getD winIdx.toNat default).isOpen = true) :
    deskCloseWindow s winIdx =
      { deskWins := s.deskWins.set winIdx.toNat
          { s.deskWins.getD winIdx.toNat default with isOpen := false }
        deskWinOrder := s.deskWinOrder.erase winIdx.toNat
        activeWin := (s.deskWinOrder.erase winIdx.toNat).head? } := by
  unfold deskCloseWindow
  rw [if_neg]
  push_neg
  exact ⟨by omega, by simpa using hopen⟩

/-- The free-slot scan returns the first index at or after i whose
record is not open. -/
lemma findFreeSlotFrom_spec :
    ∀ (ws : List DeskWindow) (i j : Nat), findFreeSlotFrom ws i = some j →
      i ≤ j ∧ j - i < ws.length ∧ (ws.getD (j - i) default).isOpen = false ∧
        ∀ k, k < j - i → (ws.getD k default).isOpen = true
  | [], i, j, h => by simp [findFreeSlotFrom] at h
  | w :: ws, i, j, h => by
    by_cases hw : w.isOpen
    · simp only [findFreeSlotFrom, hw, Bool.not_true, Bool.false_eq_true,
        if_false] at h
      obtain ⟨h1, h2, h3, h4⟩ := findFreeSlotFrom_spec ws (i + 1) j h
      refine ⟨by omega, by simp only [List.length_cons]; omega, ?_, ?_⟩
      · have he : j - i = (j - (i + 1)) + 1 := by omega
        rw [he, List.getD_cons_succ]
        exact h3
      · intro k hk
        cases k with
        | zero => simpa [List.getD_cons_zero] using hw
        | succ k' =>
          rw [List.getD_cons_succ]
          exact h4 k' (by omega)
    · simp only [findFreeSlotFrom, hw, Bool.not_false, if_true,
        Option.some.injEq] at h
      subst h
      refine ⟨le_rfl, by simp, ?_, ?_⟩
      · simpa [List.getD_cons_zero] using hw
      · intro k hk
        omega

/-- The slot claimed by deskOpenWindow is the lowest-indexed free slot. -/
lemma findFreeSlot_spec (wins : List DeskWindow) (slot : Nat)
    (h : findFreeSlot wins = some slot) :
    slot < wins.length ∧ (wins.getD slot default).isOpen = false ∧
      ∀ k, k < slot → (wins.getD k default).isOpen = true := by
  have := findFreeSlotFrom_spec wins 0 slot h
  simpa using this

/-- The boot state satisfies the z-order invariant. -/
lemma deskInit_inv : DeskInvariant deskInit := by
  refine ⟨by simp [deskInit, MAX_DESK_WINDOWS], by simp [deskInit], ?_, ?_⟩
  · intro i
    simp only [deskInit, List.not_mem_nil, false_iff, not_and]
    intro hi
    have : (List.replicate MAX_DESK_WINDOWS (default : DeskWindow)).getD i default
        = default := by
      rcases Nat.lt_or_ge i MAX_DESK_WINDOWS with h | h
      · simp [List.getD, List.getElem?_replicate, h]
      · exact getD_oob _ _ (by simpa using h)
    simp [winOpen, deskInit, this]
  · intro h
    simp [deskInit] at h

/-- deskOpenWindow preserves the z-order invariant. -/
lemma deskOpenWindow_inv (s : DeskState) (a : Nat) (t : String)
    (hs : DeskInvariant s) : DeskInvariant (deskOpenWindow s a t) := by
  obtain ⟨hlen, hnd, hmem, hhead⟩ := hs
  cases hfind : findFreeSlot s.deskWins with
  | none =>
    rw [deskOpenWindow_eq_of_full s a t hfind]
    exact ⟨hlen, hnd, hmem, hhead⟩
  | some slot =>
    obtain ⟨hslot, hfree, _⟩ := findFreeSlot_spec _ _ hfind
    have hslot15 : slot < MAX_DESK_WINDOWS := by rwa [hlen] at hslot
    have hnotmem : slot ∉ s.deskWinOrder := by
      intro hc
      have hw := ((hmem slot).mp hc).2
      rw [winOpen_eq] at hw
      rw [hw] at hfree
      exact absurd hfree (by simp)
    rw [deskOpenWindow_eq_of_found s a t slot hfind]
    refine ⟨by simpa using hlen, List.nodup_cons.mpr ⟨hnotmem, hnd⟩, ?_, ?_⟩
    · intro i
      rw [List.mem_cons]
      by_cases hi : i = slot
      · subst hi
        simp only [true_or, true_iff]
        refine ⟨hslot15, ?_⟩
        rw [winOpen_eq]
        show ((s.deskWins.set i (openedRecord a t i)).getD i default).isOpen = true
        rw [getD_set_self _ _ _ hslot]
        rfl
      · simp only [hi, false_or]
        rw [hmem i]
        have he : winOpen
            { deskWins := s.deskWins.set slot (openedRecord a t slot)
              deskWinOrder := slot :: s.deskWinOrder
              activeWin := some slot } i = winOpen s i := by
          rw [winOpen_eq, winOpen_eq]
          show ((s.deskWins.set slot (openedRecord a t slot)).getD i default).isOpen = _
          rw [getD_set_ne _ _ _ _ hi]
        rw [he]
    · intro _
      rfl

/-- deskCloseWindow preserves the z-order invariant. -/
lemma deskCloseWindow_inv (s : DeskState) (winIdx : Int)
    (hs : DeskInvariant s) : DeskInvariant (deskCloseWindow s winIdx) := by
  obtain ⟨hlen, hnd, hmem, hhead⟩ := hs
  by_cases hg : winIdx < 0 ∨ ¬(s.deskWins.getD winIdx.toNat default).isOpen
  · rw [show deskCloseWindow s winIdx = s from by unfold deskCloseWindow; rw [if_pos hg]]
    exact ⟨hlen, hnd, hmem, hhead⟩
  · push_neg at hg
    obtain ⟨hge, hopen⟩ := hg
    rw [deskCloseWindow_eq_of_open s winIdx hge hopen]
    have hlt : winIdx.toNat < s.deskWins.length := by
      by_contra hc
      rw [getD_oob _ _ (by omega)] at hopen
      exact absurd hopen (by simp [default])
    refine ⟨by simpa using hlen, hnd.erase _, ?_, ?_⟩
    · intro i
      rw [hnd.mem_erase_iff]
      by_cases hi : i = winIdx.toNat
      · subst hi
        simp only [ne_eq, not_true_eq_false, false_and, false_iff, not_and]
        intro _
        rw [winOpen_eq]
        show ¬((s.deskWins.set winIdx.toNat
          { s.deskWins.getD winIdx.toNat default with isOpen := false }).getD
            winIdx.toNat default).isOpen = true
        rw [getD_set_self _ _ _ hlt]
        simp
      · simp only [ne_eq, hi, not_false_eq_true, true_and]
        rw [hmem i]
        have he : winOpen
            { deskWins := s.deskWins.set winIdx.toNat
                { s.deskWins.getD winIdx.toNat default with isOpen := false }
              deskWinOrder := s.deskWinOrder.erase winIdx.toNat
              activeWin := (s.deskWinOrder.erase winIdx.toNat).head? } i = winOpen s i := by
          rw [winOpen_eq, winOpen_eq]
          show ((s.deskWins.set winIdx.toNat _).getD i default).isOpen = _
          rw [getD_set_ne _ _ _ _ hi]
        rw [he]
    · intro _
      rfl

/-- C1: for every sequence of deskOpenWindow / deskCloseWindow calls
from the empty desktop, the live z-order prefix deskWinOrder[0..deskWinCount-1]
has no duplicates, contains exactly the slots whose open flag is true,
and (when deskWinCount > 0) its front element equals activeWin. -/
theorem deskRun_invariant (ops : List DeskOp) : DeskInvariant (deskRun ops) := by
  have hstep : ∀ (l : List DeskOp) (s : DeskState), DeskInvariant s →
      DeskInvariant (l.foldl
        (fun s op => match op with
          | .openWin a t => deskOpenWindow s a t
          | .closeWin i => deskCloseWindow s i) s) := by
    intro l
    induction l with
    | nil => intro s hs; exact hs
    | cons op l ih =>
      intro s hs
      cases op with
      | openWin a t => exact ih _ (deskOpenWindow_inv s a t hs)
      | closeWin i => exact ih _ (deskCloseWindow_inv s i hs)
  exact hstep ops deskInit deskInit_inv

/-- C10: deskCloseWindow called with a negative window index, or on a
slot whose open flag is false, returns leaving every window record, the
z-order prefix (and hence deskWinCount), and activeWin unchanged. -/
theorem deskCloseWindow_noop (s : DeskState) (winIdx : Int)
    (h : winIdx < 0 ∨ (s.deskWins.getD winIdx.toNat default).isOpen = false) :
    deskCloseWindow s winIdx = s := by
  unfold deskCloseWindow
  rw [if_pos]
  rcases h with h | h
  · exact Or.inl h
  · exact Or.inr (by simpa using h)

/-- Witness for C10: closing slot 5 (never opened) and index -1 in a
desktop holding one open window changes nothing. -/
theorem deskCloseWindow_noop_witness :
    deskCloseWindow (deskRun [.openWin 1 ""]) 5 = deskRun [.openWin 1 ""] ∧
    deskCloseWindow (deskRun [.openWin 1 ""]) (-1) = deskRun [.openWin 1 ""] :=
  ⟨deskCloseWindow_noop _ 5 (Or.inr (by decide)),
   deskCloseWindow_noop _ (-1) (Or.inl (by decide))⟩

/-- C8: deskBringToFront at a positive z-order position puts that
window at the front of the z-order (a permutation of the same ids,
records untouched) and focuses it; at position 0 (or any non-positive
argument) it returns the state unchanged, so under the z-order
invariant focus still rests on that front window; consequently calling
it again on the (now front) element changes nothing - it is idempotent
on the front element. -/
theorem deskBringToFront_spec :
    (∀ (s : DeskState) (i : Int), i ≤ 0 → deskBringToFront s i = s) ∧
    (∀ (s : DeskState) (i : Int), 0 < i →
      ∀ (h1 : i.toNat < s.deskWinOrder.length),
      (deskBringToFront s i).deskWinOrder.head? =
          some (s.deskWinOrder.get ⟨i.toNat, h1⟩) ∧
      (deskBringToFront s i).activeWin =
          some (s.deskWinOrder.get ⟨i.toNat, h1⟩) ∧
      List.Perm (deskBringToFront s i).deskWinOrder s.deskWinOrder ∧
      (deskBringToFront s i).deskWins = s.deskWins) ∧
    (∀ s : DeskState, DeskInvariant s → s.deskWinOrder ≠ [] →
      (deskBringToFront s 0).activeWin = s.deskWinOrder.head?) ∧
    (∀ (s : DeskState) (i : Int),
      deskBringToFront (deskBringToFront s i) 0 = deskBringToFront s i) := by
  have hid : ∀ (s : DeskState) (i : Int), i ≤ 0 → deskBringToFront s i = s := by
    intro s i h
    unfold deskBringToFront
    rw [if_pos h]
  refine ⟨hid, ?_, ?_, fun s i => hid _ 0 le_rfl⟩
  · intro s i h0 h1
    have hne : ¬ i ≤ 0 := by omega
    unfold deskBringToFront
    rw [if_neg hne]
    have hgd : s.deskWinOrder.getD i.toNat 0 = s.deskWinOrder.get ⟨i.toNat, h1⟩ := by
      simp [List.getD, List.getElem?_eq_getElem h1]
    refine ⟨?_, ?_, ?_, rfl⟩
    · show (s.deskWinOrder.getD i.toNat 0 :: s.deskWinOrder.eraseIdx i.toNat).head? =
        some (s.deskWinOrder.get ⟨i.toNat, h1⟩)
      rw [List.head?_cons, hgd]
    · show some (s.deskWinOrder.getD i.toNat 0) = some (s.deskWinOrder.get ⟨i.toNat, h1⟩)
      rw [hgd]
    show List.Perm (s.deskWinOrder.getD i.toNat 0 :: s.deskWinOrder.eraseIdx i.toNat)
      s.deskWinOrder
    rw [hgd, List.eraseIdx_eq_take_drop_succ]
    refine (List.perm_middle).symm.trans ?_
    rw [show s.deskWinOrder.get ⟨i.toNat, h1⟩ :: s.deskWinOrder.drop (i.toNat + 1) =
      s.deskWinOrder.drop i.toNat from List.getElem_cons_drop s.deskWinOrder i.toNat h1]
    rw [List.take_append_drop]
  · intro s hs hne
    rw [hid s 0 le_rfl]
    exact hs.2.2.2 hne

/-- Witness for C8: in a desktop where slot 0 then slot 1 were opened
(z-order [1, 0]), bringing position 1 to the front focuses window 0 and
makes it the front element; a further call at position 0 changes
nothing. -/
theorem deskBringToFront_witness :
    (deskBringToFront (deskRun [.openWin 1 "", .openWin 2 ""]) 1).activeWin = some 0 ∧
    (deskBringToFront (deskRun [.openWin 1 "", .openWin 2 ""]) 1).deskWinOrder.head? = some 0 ∧
    deskBringToFront (deskBringToFront (deskRun [.openWin 1 "", .openWin 2 ""]) 1) 0 =
      deskBringToFront (deskRun [.openWin 1 "", .openWin 2 ""]) 1 := by
  have h2 := deskBringToFront_spec.2.1 (deskRun [.openWin 1 "", .openWin 2 ""]) 1
    (by decide) (by decide)
  refine ⟨?_, ?_, deskBringToFront_spec.2.2.2 _ 1⟩
  · rw [h2.2.1]
    decide
  · rw [h2.1]
    decide

/-- C2 counterexample: two windows opened with the same content type
(calc, appType 1) get different rectangles - slot 0 is placed at x = 20
and slot 1 at x = 35 - so the rectangle assigned by deskOpenWindow is
not the one registered for the content type: the position part is
derived from the claimed slot index, not from the content-type table. -/
theorem deskOpenWindow_rect_not_from_type :
    ((deskRun [.openWin 1 "", .openWin 1 ""]).deskWins.getD 0 default).appType = 1 ∧
    ((deskRun [.openWin 1 "", .openWin 1 ""]).deskWins.getD 1 default).appType = 1 ∧
    ((deskRun [.openWin 1 "", .openWin 1 ""]).deskWins.getD 0 default).isOpen = true ∧
    ((deskRun [.openWin 1 "", .openWin 1 ""]).deskWins.getD 1 default).isOpen = true ∧
    ((deskRun [.openWin 1 "", .openWin 1 ""]).deskWins.getD 0 default).x = 20 ∧
    ((deskRun [.openWin 1 "", .openWin 1 ""]).deskWins.getD 1 default).x = 35 := by
  decide

/-- C2 (amended): deskOpenWindow claims the lowest-indexed free slot of
the 15-entry pool; that slot's record becomes open with the width,
height and minimum size registered for the content type and a position
computed from the slot index (x = 20 + (slot*15) mod 60,
y = 10 + (slot*12) mod 40); the slot id is pushed onto the front of the
z-order and focused; all other records are untouched; when no slot is
free the whole state is returned unchanged. -/
theorem deskOpenWindow_spec (s : DeskState) (a : Nat) (t : String) :
    (findFreeSlot s.deskWins = none → deskOpenWindow s a t = s) ∧
    ∀ slot, findFreeSlot s.deskWins = some slot →
      slot < s.deskWins.length ∧ winOpen s slot = false ∧
      (∀ k, k < slot → winOpen s k = true) ∧
      (deskOpenWindow s a t).deskWinOrder = slot :: s.deskWinOrder ∧
      (deskOpenWindow s a t).activeWin = some slot ∧
      (deskOpenWindow s a t).deskWins.getD slot default =
        { isOpen := true, appType := a, maximized := false, fullscreen := a == 12
          title := t.take 11
          w := (deskDefaultGeom a).1, h := (deskDefaultGeom a).2.1
          minW := (deskDefaultGeom a).2.2.1, minH := (deskDefaultGeom a).2.2.2
          x := 20 + ((slot * 15) % 60 : Nat), y := 10 + ((slot * 12) % 40 : Nat) } ∧
      ∀ k, k ≠ slot → (deskOpenWindow s a t).deskWins.getD k default =
        s.deskWins.getD k default := by
  refine ⟨deskOpenWindow_eq_of_full s a t, ?_⟩
  intro slot hfind
  obtain ⟨hslot, hfree, hmin⟩ := findFreeSlot_spec _ _ hfind
  rw [deskOpenWindow_eq_of_found s a t slot hfind]
  refine ⟨hslot, hfree, hmin, rfl, rfl, ?_, ?_⟩
  · show (s.deskWins.set slot (openedRecord a t slot)).getD slot default = _
    rw [getD_set_self _ _ _ hslot]
    rfl
  · intro k hk
    show (s.deskWins.set slot (openedRecord a t slot)).getD k default = _
    rw [getD_set_ne _ _ _ _ hk]

/-- Witness for C2 (amended): opening a calc window on the empty
desktop claims slot 0, which gets the calc geometry 95x85 at (20, 10),
becomes the focused front of the z-order, and slot 1 stays untouched. -/
theorem deskOpenWindow_spec_witness :
    (deskOpenWindow deskInit 1 "").deskWinOrder = [0] ∧
    (deskOpenWindow deskInit 1 "").activeWin = some 0 ∧
    ((deskOpenWindow deskInit 1 "").deskWins.getD 0 default).w = 95 ∧
    ((deskOpenWindow deskInit 1 "").deskWins.getD 0 default).x = 20 ∧
    (deskOpenWindow deskInit 1 "").deskWins.getD 1 default =
      deskInit.deskWins.getD 1 default := by
  have h := (deskOpenWindow_spec deskInit 1 "").2 0 (by decide)
  refine ⟨h.2.2.2.1, h.2.2.2.2.1, ?_, ?_, h.2.2.2.2.2.2 1 (by decide)⟩
  · rw [h.2.2.2.2.2.1]
    decide
  · rw [h.2.2.2.2.2.1]
    decide

/-! Drag and resize controller (drawDesktopApp, lines 5933-5955). -/

/-- The drag update (lines 5933-5943): on a cursor move during a drag
session the window origin becomes cursor minus the recorded offset,
then the left and top edges are clamped to 0 and the right and bottom
edges to the screen (SCREEN_HEIGHT includes the taskbar band, so the
window may still overlap the taskbar). -/
def dragUpdate (mouseX mouseY dragOffX dragOffY w h : Int) : Int × Int :=
  let x0 := mouseX - dragOffX
  let y0 := mouseY - dragOffY
  let x1 := if x0 < 0 then 0 else x0
  let y1 := if y0 < 0 then 0 else y0
  let x2 := if x1 + w > SCREEN_WIDTH then SCREEN_WIDTH - w else x1
  let y2 := if y1 + h > SCREEN_HEIGHT then SCREEN_HEIGHT - h else y1
  (x2, y2)

/-- The resize update (lines 5946-5955): on a cursor move during a
resize session the new width/height are cursor minus origin plus the
recorded offset, adopted only when not below the declared minimum, then
clamped so the window does not extend beyond the screen. -/
def resizeUpdate (mouseX mouseY dragOffX dragOffY x y w h minW minH : Int) :
    Int × Int :=
  let newW := mouseX - x + dragOffX
  let newH := mouseY - y + dragOffY
  let w1 := if newW ≥ minW then newW else w
  let h1 := if newH ≥ minH then newH else h
  let w2 := if x + w1 > SCREEN_WIDTH then SCREEN_WIDTH - x else w1
  let h2 := if y + h1 > SCREEN_HEIGHT then SCREEN_HEIGHT - y else h1
  (w2, h2)

/-- C4: after any drag update of a window whose size fits the screen
(w ≤ 240, h ≤ 135), the window's horizontal extent stays inside
[0, SCREEN_WIDTH] (x ≥ 0 and x + w ≤ 240) and its top edge never goes
above 0 - while the bottom edge is only kept within the full screen
height, so it may extend into the taskbar band. -/
theorem dragUpdate_bounds (mouseX mouseY dragOffX dragOffY w h : Int)
    (hw : w ≤ SCREEN_WIDTH) (hh : h ≤ SCREEN_HEIGHT) :
    0 ≤ (dragUpdate mouseX mouseY dragOffX dragOffY w h).1 ∧
    (dragUpdate mouseX mouseY dragOffX dragOffY w h).1 + w ≤ SCREEN_WIDTH ∧
    0 ≤ (dragUpdate mouseX mouseY dragOffX dragOffY w h).2 := by
  rw [SCREEN_WIDTH] at hw
  rw [SCREEN_HEIGHT] at hh
  simp only [dragUpdate, SCREEN_WIDTH, SCREEN_HEIGHT]
  split_ifs <;> constructor <;> try constructor
  all_goals omega

/-- Witness for C4: dragging a 95x85 calc window to the far bottom-right
corner of the screen clamps its origin to (145, 50). -/
theorem dragUpdate_bounds_witness :
    dragUpdate 239 134 0 0 95 85 = (145, 50) ∧
    (0 ≤ (dragUpdate 239 134 0 0 95 85).1 ∧
     (dragUpdate 239 134 0 0 95 85).1 + 95 ≤ SCREEN_WIDTH ∧
     0 ≤ (dragUpdate 239 134 0 0 95 85).2) :=
  ⟨by decide, dragUpdate_bounds 239 134 0 0 95 85 (by decide) (by decide)⟩

/-- C5: a resize update preserves the session invariant - if before the
update the window met its declared minimum and lay within the screen,
then after the update its size is still at least the declared minimum
(w ≥ minW, h ≥ minH) and the window still does not extend beyond the
screen (x + w ≤ 240, y + h ≤ 135). -/
theorem resizeUpdate_bounds (mouseX mouseY dragOffX dragOffY x y w h minW minH : Int)
    (hminW : minW ≤ w) (hminH : minH ≤ h)
    (hxw : x + w ≤ SCREEN_WIDTH) (hyh : y + h ≤ SCREEN_HEIGHT) :
    minW ≤ (resizeUpdate mouseX mouseY dragOffX dragOffY x y w h minW minH).1 ∧
    minH ≤ (resizeUpdate mouseX mouseY dragOffX dragOffY x y w h minW minH).2 ∧
    x + (resizeUpdate mouseX mouseY dragOffX dragOffY x y w h minW minH).1 ≤ SCREEN_WIDTH ∧
    y + (resizeUpdate mouseX mouseY dragOffX dragOffY x y w h minW minH).2 ≤ SCREEN_HEIGHT := by
  rw [SCREEN_WIDTH] at hxw
  rw [SCREEN_HEIGHT] at hyh
  simp only [resizeUpdate, SCREEN_WIDTH, SCREEN_HEIGHT]
  split_ifs <;> refine ⟨?_, ?_, ?_, ?_⟩
  all_goals omega

/-- Witness for C5: dragging the resize grip of a calc window at
(20, 10) to the screen corner (grip offset 5,5) clamps its size to the screen,
220x125, still at least the 95x85 minimum. -/
theorem resizeUpdate_bounds_witness :
    resizeUpdate 239 134 5 5 20 10 95 85 95 85 = (220, 125) ∧
    (95 ≤ (resizeUpdate 239 134 5 5 20 10 95 85 95 85).1 ∧
     85 ≤ (resizeUpdate 239 134 5 5 20 10 95 85 95 85).2 ∧
     20 + (resizeUpdate 239 134 5 5 20 10 95 85 95 85).1 ≤ SCREEN_WIDTH ∧
     10 + (resizeUpdate 239 134 5 5 20 10 95 85 95 85).2 ≤ SCREEN_HEIGHT) :=
  ⟨by decide, resizeUpdate_bounds 239 134 5 5 20 10 95 85 95 85
    (by decide) (by decide) (by decide) (by decide)⟩

/-! Frame Buffer Manager (lines 153-228) and the compositor's direct
fallback (deskFullRedraw, lines 5367-5374). -/

/-- Where Adafruit_GFX* gfx (line 154) points: the PSRAM canvas or the
raw tft device. -/
inductive GfxTarget where
  | buffer
  | tft
deriving DecidableEq, Repr

/-- Frame-buffer manager state: bufferReady (line 155), deskBuffer
(line 153; outer none = null pointer, inner none = allocated canvas
whose getBuffer() is null), the gfx pointer (line 154; none = null),
and the pixels currently held by the physical display (written only by
tft.drawRGBBitmap). -/
structure FrameBufferState where
  bufferReady : Bool
  deskBuffer : Option (Option (List Nat))
  gfx : Option GfxTarget
  tftPixels : List Nat
deriving DecidableEq, Repr

/-- flushBuffer (lines 216-228): when bufferReady is false, deskBuffer
is null or its pixel buffer is null, return without touching anything;
otherwise transfer the canvas pixels to the display in one
tft.drawRGBBitmap call (after ensureTFTState, which touches only the
bus, not this state). -/
def flushBuffer (s : FrameBufferState) : FrameBufferState :=
  match s.bufferReady, s.deskBuffer with
  | true, some (some buf) => { s with tftPixels := buf }
  | _, _ => s

/-- initDoubleBuffer (lines 159-182).  The allocation outcome of
new PSRAMCanvas16 (the canvas's internal pixel buffer, null on
failure) is the external parameter alloc. -/
def initDoubleBuffer (alloc : Option (List Nat)) (s : FrameBufferState) :
    FrameBufferState × Bool :=
  match s.bufferReady, s.deskBuffer with
  | true, some (some _) => (s, true)
  | _, _ =>
    let s1 := if s.deskBuffer = none then { s with deskBuffer := some alloc } else s
    match s1.deskBuffer with
    | some (some _) => ({ s1 with bufferReady := true }, true)
    | _ => ({ s1 with bufferReady := false, deskBuffer := none }, false)

/-- The entry of deskFullRedraw (lines 5367-5374): retry allocation if
the buffer is not ready, then point gfx at the canvas when the buffer
is ready and at the raw tft device otherwise (only when gfx is still
null). -/
def deskFullRedrawSetup (alloc : Option (List Nat)) (s : FrameBufferState) :
    FrameBufferState :=
  let s1 := if ¬s.bufferReady then (initDoubleBuffer alloc s).1 else s
  if s1.gfx = none then
    { s1 with gfx := some (if s1.bufferReady then .buffer else .tft) }
  else s1

/-- C6: when frame-buffer allocation has failed, flushBuffer transfers
nothing (in fact it changes no state at all), and the compositor's
setup points gfx at the raw tft device, with bufferReady still false
and nothing written to the display. -/
theorem flushBuffer_failure (s : FrameBufferState) (alloc : Option (List Nat))
    (hready : s.bufferReady = false ∨ s.deskBuffer = none ∨ s.deskBuffer = some none) :
    flushBuffer s = s ∧
    (s.bufferReady = false → s.deskBuffer = none → s.gfx = none → alloc = none →
      (deskFullRedrawSetup alloc s).gfx = some .tft ∧
      (deskFullRedrawSetup alloc s).bufferReady = false ∧
      (deskFullRedrawSetup alloc s).tftPixels = s.tftPixels ∧
      flushBuffer (deskFullRedrawSetup alloc s) = deskFullRedrawSetup alloc s) := by
  constructor
  · unfold flushBuffer
    rcases hready with h | h | h
    · rw [h]
    · rw [h]
      cases s.bufferReady <;> rfl
    · rw [h]
      cases s.bufferReady <;> rfl
  · intro h1 h2 h3 h4
    subst h4
    unfold deskFullRedrawSetup initDoubleBuffer flushBuffer
    rw [h1, h2, h3]
    simp

/-- Witness for C6: starting from the boot state with no canvas and a
failing allocation, gfx falls back to the tft device, the ready flag
stays down, the display is untouched and flush is the identity. -/
theorem flushBuffer_failure_witness :
    (deskFullRedrawSetup none
      { bufferReady := false, deskBuffer := none, gfx := none, tftPixels := [] }).gfx =
        some .tft ∧
    flushBuffer (deskFullRedrawSetup none
      { bufferReady := false, deskBuffer := none, gfx := none, tftPixels := [] }) =
      deskFullRedrawSetup none
        { bufferReady := false, deskBuffer := none, gfx := none, tftPixels := [] } := by
  have h := (flushBuffer_failure
    { bufferReady := false, deskBuffer := none, gfx := none, tftPixels := [] } none
    (Or.inl rfl)).2 rfl rfl rfl rfl
  exact ⟨h.1, h.2.2.2⟩

/-! SD-card hot-swap supervision (loop, lines 1351-1399). -/

/-- State touched by the SD-card supervision: the statics lastSDCheck
and lastRemountTry, the globals sdCardMounted (line 135), sdCardRemoved
(line 136), sdCardWarningCount (line 934), biosRequireSD (line 102),
deskNeedRedraw (line 817), and the desktop fields the safe-mode entry
resets (open flags, deskWinCount, activeWin, desktopMode). -/
structure SDState where
  sdCardMounted : Bool
  sdCardRemoved : Bool
  sdCardWarningCount : Nat
  lastSDCheck : Nat
  lastRemountTry : Nat
  biosRequireSD : Bool
  desktopMode : Bool
  deskWinsOpen : List Bool
  deskWinCount : Nat
  activeWin : Option Nat
  deskNeedRedraw : Bool
deriving DecidableEq, Repr

/-- Outcome of one supervision pass: the new state, whether
remountSDCard() was called this tick, and whether the reload hooks
(loadOSData / loadWiFiCredentials) ran. -/
structure SDTickResult where
  state : SDState
  remountTried : Bool
  reloaded : Bool
deriving DecidableEq, Repr

/-- The hot-swap detection block (lines 1351-1385), run at time t
(milliseconds): every 2 s probe the card (outcome: the external input
probeOk); on a failed probe bump the warning counter and on the second
consecutive warning declare the card unmounted and, when biosRequireSD,
removed - entering the restricted desktop with every window closed.
Serial prints, the warning notification and the beep are not
modelled. -/
def sdCheckBlock (t : Nat) (probeOk : Bool) (s : SDState) : SDState :=
  if s.sdCardMounted ∧ ¬s.sdCardRemoved ∧ 2000 ≤ t - s.lastSDCheck then
    let sa := { s with lastSDCheck := t }
    if ¬probeOk then
      let sb := { sa with sdCardWarningCount := sa.sdCardWarningCount + 1 }
      if 2 ≤ sb.sdCardWarningCount then
        let sc := { sb with sdCardMounted := false, sdCardWarningCount := 0 }
        if sc.biosRequireSD then
          { sc with
            sdCardRemoved := true
            desktopMode := true
            deskWinsOpen := List.replicate MAX_DESK_WINDOWS false
            deskWinCount := 0
            activeWin := none }
        else sc
      else sb
    else { sa with sdCardWarningCount := 0 }
  else s

/-- The remount block (lines 1387-1399): every 5 s while unmounted call
remountSDCard(); on success (it sets sdCardMounted and clears
sdCardRemoved, lines 551-570) clear sdCardRemoved again, run the reload
hooks and raise deskNeedRedraw. -/
def sdRemountBlock (t : Nat) (remountOk : Bool) (s : SDState) : SDTickResult :=
  if ¬s.sdCardMounted ∧ 5000 ≤ t - s.lastRemountTry then
    let s2 := { s with lastRemountTry := t }
    if remountOk then
      { state :=
          { s2 with
            sdCardMounted := true
            sdCardRemoved := false
            deskNeedRedraw := true }
        remountTried := true
        reloaded := true }
    else
      { state := s2, remountTried := true, reloaded := false }
  else
    { state := s, remountTried := false, reloaded := false }

/-- One pass over the two consecutive supervision blocks of loop(). -/
def sdStep (t : Nat) (probeOk remountOk : Bool) (s : SDState) : SDTickResult :=
  sdRemountBlock t remountOk (sdCheckBlock t probeOk s)

/-- Safe mode is the restricted popup state of lines 1402-1445, entered
exactly when the card is flagged removed under a require-SD policy. -/
def inSafeMode (s : SDState) : Bool :=
  s.sdCardRemoved ∧ s.biosRequireSD

/-- A healthy booted state with the desktop holding one open window. -/
def sdScenarioInit : SDState :=
  { sdCardMounted := true, sdCardRemoved := false, sdCardWarningCount := 0
    lastSDCheck := 0, lastRemountTry := 0, biosRequireSD := true
    desktopMode := true
    deskWinsOpen := true :: List.replicate 14 false
    deskWinCount := 1, activeWin := some 0, deskNeedRedraw := false }

/-- The scenario states: after the failing 2 s and 4 s probes, and
after a failing remount attempt at 5 s and a succeeding one at 10 s. -/
def sdAfterFirstFail : SDState := (sdStep 2000 false false sdScenarioInit).state

def sdAfterSecondFail : SDState := (sdStep 4000 false false sdAfterFirstFail).state

def sdAfterFailedRemount : SDState := (sdStep 5000 false false sdAfterSecondFail).state

/-- Commuting fact: the hot-swap detection block never touches the
remount timestamp. -/
lemma sdCheckBlock_lastRemountTry (t : Nat) (p : Bool) (s : SDState) :
    (sdCheckBlock t p s).lastRemountTry = s.lastRemountTry := by
  unfold sdCheckBlock
  dsimp only
  split_ifs <;> rfl

/-- C7: with biosRequireSD set, two consecutive failing probes at the
2 s cadence put the system into safe mode at t = 4000 ms (card declared
removed, every window closed, focus cleared); the reinsertion probe
runs at the 5 s cadence (first due attempt at 5000 ms, not due again at
7000 ms, due again at 10000 ms - in general an attempt implies 5000 ms
have passed since the previous one), and a successful remount leaves
safe mode, reloads dependent state and raises the full-redraw flag
deskNeedRedraw. -/
theorem sdSupervision_spec :
    (inSafeMode sdAfterFirstFail = false ∧
      sdAfterFirstFail.sdCardWarningCount = 1 ∧
      inSafeMode sdAfterSecondFail = true ∧
      sdAfterSecondFail.deskWinCount = 0 ∧
      sdAfterSecondFail.deskWinsOpen = List.replicate 15 false ∧
      sdAfterSecondFail.activeWin = none ∧
      (sdStep 5000 false false sdAfterSecondFail).remountTried = true ∧
      (sdStep 7000 false true sdAfterFailedRemount).remountTried = false ∧
      (sdStep 10000 false true sdAfterFailedRemount).reloaded = true ∧
      inSafeMode (sdStep 10000 false true sdAfterFailedRemount).state = false ∧
      (sdStep 10000 false true sdAfterFailedRemount).state.deskNeedRedraw = true) ∧
    (∀ (t : Nat) (probeOk remountOk : Bool) (s : SDState),
      ((sdStep t probeOk remountOk s).remountTried = true →
        5000 ≤ t - s.lastRemountTry) ∧
      ((sdStep t probeOk remountOk s).reloaded = true →
        remountOk = true ∧
        (sdStep t probeOk remountOk s).state.sdCardRemoved = false ∧
        (sdStep t probeOk remountOk s).state.deskNeedRedraw = true)) := by
  constructor
  · decide
  · intro t probeOk remountOk s
    have hl := sdCheckBlock_lastRemountTry t probeOk s
    unfold sdStep
    constructor
    · intro h
      unfold sdRemountBlock at h
      rw [← hl]
      split_ifs at h with h1 h2
      · exact h1.2
      · exact h1.2
    · intro h
      by_cases h1 : ¬(sdCheckBlock t probeOk s).sdCardMounted = true ∧
          5000 ≤ t - (sdCheckBlock t probeOk s).lastRemountTry
      · by_cases h2 : remountOk = true
        · refine ⟨h2, ?_, ?_⟩ <;> simp [sdRemountBlock, h1, h2]
        · exfalso
          unfold sdRemountBlock at h
          rw [if_pos h1] at h
          rw [if_neg h2] at h
          exact absurd h (by simp)
      · exfalso
        unfold sdRemountBlock at h
        rw [if_neg h1] at h
        exact absurd h (by simp)

/-- Witness for C7's general part: from the state after the failed 5 s
remount attempt, the attempt at 10 s satisfies the cadence bound and its
success reloads state with the redraw flag raised. -/
theorem sdSupervision_spec_witness :
    5000 ≤ 10000 - sdAfterFailedRemount.lastRemountTry ∧
    (sdStep 10000 false true sdAfterFailedRemount).state.deskNeedRedraw = true := by
  constructor
  · exact (sdSupervision_spec.2 10000 false true sdAfterFailedRemount).1 (by decide)
  · exact ((sdSupervision_spec.2 10000 false true sdAfterFailedRemount).2 (by decide)).2.2

/-! The SET+RST screenshot chord (loop, lines 1447-1476). -/

/-- The statics of the screenshot-chord block: screenshotHoldStart,
screenshotTaken and screenshotComboUsed (lines 1449-1451), all zero at
boot. -/
structure ChordState where
  screenshotHoldStart : Nat
  screenshotTaken : Bool
  screenshotComboUsed : Bool
deriving DecidableEq, Repr

/-- Per-tick outputs of the chord block: whether takeScreenshot()
fired, and whether the block returned early - suppressing every
single-button action for the rest of that loop pass. -/
structure ChordTick where
  state : ChordState
  fired : Bool
  suppressed : Bool
deriving DecidableEq, Repr

/-- One pass over the chord block at time t with the raw joySet/joyRst
levels (lines 1452-1476): while both are held, (re)arm on the first
such tick (screenshotHoldStart == 0), fire once 1000 ms have passed
since arming, and return; after the combo was used, while not both are
observed released, return without acting (clearing the statics once
both are released simultaneously); otherwise reset the hold timer and
fall through to single-button processing. -/
def chordStep (t : Nat) (joySet joyRst : Bool) (s : ChordState) : ChordTick :=
  if joySet ∧ joyRst then
    let s1 :=
      if s.screenshotHoldStart = 0 then
        { screenshotHoldStart := t
          screenshotTaken := false
          screenshotComboUsed := true }
      else s
    if ¬s1.screenshotTaken ∧ 1000 ≤ t - s1.screenshotHoldStart then
      { state := { s1 with screenshotTaken := true }, fired := true, suppressed := true }
    else
      { state := s1, fired := false, suppressed := true }
  else if s.screenshotComboUsed ∧ (¬joySet ∨ ¬joyRst) then
    if ¬joySet ∧ ¬joyRst then
      { state :=
          { screenshotHoldStart := 0
            screenshotTaken := false
            screenshotComboUsed := false }
        fired := false
        suppressed := true }
    else
      { state := s, fired := false, suppressed := true }
  else
    { state := { s with screenshotHoldStart := 0, screenshotTaken := false }
      fired := false
      suppressed := false }

/-- Boot values of the chord statics. -/
def chordInit : ChordState :=
  { screenshotHoldStart := 0, screenshotTaken := false, screenshotComboUsed := false }

/-- Run the chord block over a list of (time, joySet, joyRst) samples,
collecting each tick's outputs. -/
def chordRun (s : ChordState) : List (Nat × Bool × Bool) → List ChordTick
  | [] => []
  | (t, a, b) :: rest =>
    let r := chordStep t a b s
    r :: chordRun r.state rest

/-- The sample times at which the chord fires along a trace. -/
def chordFiredTimes (s : ChordState) : List (Nat × Bool × Bool) → List Nat
  | [] => []
  | (t, a, b) :: rest =>
    let r := chordStep t a b s
    (if r.fired then [t] else []) ++ chordFiredTimes r.state rest

/-- A 100 ms-sampled trace in which both buttons go down at 100 ms, RST
is released at the 600 ms sample only, and both are held again from
700 ms on. -/
def chordGapTrace : List (Nat × Bool × Bool) :=
  [(100, true, true), (200, true, true), (300, true, true), (400, true, true),
   (500, true, true), (600, true, false), (700, true, true), (800, true, true),
   (900, true, true), (1000, true, true), (1100, true, true)]

/-- C9 counterexample: the chord does not have to be held continuously
for 1 s to fire.  On chordGapTrace the chord fires at 1100 ms although
the buttons were not both held at every sample of the preceding
1000 ms (RST was up at the 600 ms sample): the partial release does not
reset screenshotHoldStart, so the 1 s timer keeps running from the
first simultaneous press. -/
theorem chord_fires_without_continuous_hold :
    chordFiredTimes chordInit chordGapTrace = [1100] ∧
    (600, true, false) ∈ chordGapTrace ∧
    ¬(∀ e ∈ chordGapTrace, 100 ≤ e.1 → e.1 ≤ 1100 →
        e.2.1 = true ∧ e.2.2 = true) := by
  decide

/-! Equation lemmas for the five control paths of the chord block. -/

lemma chordStep_arm (t : Nat) (s : ChordState)
    (h0 : s.screenshotHoldStart = 0) :
    chordStep t true true s =
      { state :=
          { screenshotHoldStart := t
            screenshotTaken := false
            screenshotComboUsed := true }
        fired := false
        suppressed := true } := by
  unfold chordStep
  rw [if_pos ⟨rfl, rfl⟩, if_pos h0]
  rw [if_neg]
  simp

lemma chordStep_held (t : Nat) (s : ChordState)
    (h0 : ¬s.screenshotHoldStart = 0) :
    chordStep t true true s =
      if ¬s.screenshotTaken ∧ 1000 ≤ t - s.screenshotHoldStart then
        { state := { s with screenshotTaken := true }, fired := true, suppressed := true }
      else
        { state := s, fired := false, suppressed := true } := by
  unfold chordStep
  rw [if_pos ⟨rfl, rfl⟩, if_neg h0]

lemma chordStep_halfRelease (t : Nat) (a b : Bool) (s : ChordState)
    (hab : ¬(a = true ∧ b = true)) (hused : s.screenshotComboUsed = true)
    (hrel : ¬(¬a = true ∧ ¬b = true)) :
    chordStep t a b s = { state := s, fired := false, suppressed := true } := by
  unfold chordStep
  rw [if_neg hab, if_pos ⟨hused, by tauto⟩, if_neg hrel]

lemma chordStep_release (t : Nat) (s : ChordState)
    (hused : s.screenshotComboUsed = true) :
    chordStep t false false s =
      { state := chordInit, fired := false, suppressed := true } := by
  unfold chordStep
  rw [if_neg (by simp), if_pos ⟨hused, by simp⟩, if_pos ⟨by simp, by simp⟩]
  rfl

lemma chordStep_idle (t : Nat) (a b : Bool) (s : ChordState)
    (hab : ¬(a = true ∧ b = true)) (hused : s.screenshotComboUsed = false) :
    chordStep t a b s =
      { state := { s with screenshotHoldStart := 0, screenshotTaken := false }
        fired := false
        suppressed := false } := by
  unfold chordStep
  rw [if_neg hab, if_neg (by simp [hused])]

/-- C9 (amended): the chord fires only on a tick where both buttons are
held, with the statics armed (screenshotHoldStart nonzero, screenshot
not yet taken) and at least 1000 ms past the recorded
simultaneous-press anchor - an anchor that a partial release does not
reset, so continuous hold is not required; pressing both buttons from
the idle timer state arms the chord and sets the used flag; while the
used flag is set every tick is suppressed (no single-button action is
dispatched, including the tick on which both buttons are first observed
released), and the flag clears exactly on a tick whose inputs show both
buttons released simultaneously - hence along any trace with the flag
set and no simultaneous release, every tick is suppressed. -/
theorem chord_spec :
    (∀ (t : Nat) (a b : Bool) (s : ChordState),
      s.screenshotComboUsed = true → (chordStep t a b s).suppressed = true) ∧
    (∀ (t : Nat) (a b : Bool) (s : ChordState),
      s.screenshotComboUsed = true →
      ((chordStep t a b s).state.screenshotComboUsed = false ↔
        (a = false ∧ b = false))) ∧
    (∀ (t : Nat) (a b : Bool) (s : ChordState),
      a = true → b = true → s.screenshotHoldStart = 0 →
      (chordStep t a b s).state.screenshotComboUsed = true) ∧
    (∀ (t : Nat) (a b : Bool) (s : ChordState),
      (chordStep t a b s).fired = true →
      a = true ∧ b = true ∧ s.screenshotHoldStart ≠ 0 ∧
      s.screenshotTaken = false ∧ 1000 ≤ t - s.screenshotHoldStart) ∧
    (∀ (s : ChordState) (trace : List (Nat × Bool × Bool)),
      s.screenshotComboUsed = true →
      (∀ e ∈ trace, ¬(e.2.1 = false ∧ e.2.2 = false)) →
      ∀ r ∈ chordRun s trace, r.suppressed = true) := by
  have hsup : ∀ (t : Nat) (a b : Bool) (s : ChordState),
      s.screenshotComboUsed = true → (chordStep t a b s).suppressed = true := by
    intro t a b s hs
    cases a <;> cases b
    · rw [chordStep_release t s hs]
    · rw [chordStep_halfRelease t false true s (by simp) hs (by simp)]
    · rw [chordStep_halfRelease t true false s (by simp) hs (by simp)]
    · by_cases h0 : s.screenshotHoldStart = 0
      · rw [chordStep_arm t s h0]
      · rw [chordStep_held t s h0]
        split_ifs <;> rfl
  have hkeep : ∀ (t : Nat) (a b : Bool) (s : ChordState),
      s.screenshotComboUsed = true →
      ((chordStep t a b s).state.screenshotComboUsed = false ↔
        (a = false ∧ b = false)) := by
    intro t a b s hs
    cases a <;> cases b
    · rw [chordStep_release t s hs]
      simp [chordInit]
    · rw [chordStep_halfRelease t false true s (by simp) hs (by simp)]
      simp [hs]
    · rw [chordStep_halfRelease t true false s (by simp) hs (by simp)]
      simp [hs]
    · by_cases h0 : s.screenshotHoldStart = 0
      · rw [chordStep_arm t s h0]
        simp
      · rw [chordStep_held t s h0]
        split_ifs <;> simp [hs]
  refine ⟨hsup, hkeep, ?_, ?_, ?_⟩
  · intro t a b s ha hb h0
    subst ha
    subst hb
    rw [chordStep_arm t s h0]
  · intro t a b s h
    cases a <;> cases b
    all_goals by_cases hu : s.screenshotComboUsed = true
    · rw [chordStep_release t s hu] at h
      exact absurd h (by simp)
    · rw [chordStep_idle t false false s (by simp) (by simpa using hu)] at h
      exact absurd h (by simp)
    · rw [chordStep_halfRelease t false true s (by simp) hu (by simp)] at h
      exact absurd h (by simp)
    · rw [chordStep_idle t false true s (by simp) (by simpa using hu)] at h
      exact absurd h (by simp)
    · rw [chordStep_halfRelease t true false s (by simp) hu (by simp)] at h
      exact absurd h (by simp)
    · rw [chordStep_idle t true false s (by simp) (by simpa using hu)] at h
      exact absurd h (by simp)
    all_goals
      by_cases h0 : s.screenshotHoldStart = 0
    all_goals try
      (rw [chordStep_arm t s h0] at h
       exact absurd h (by simp))
    all_goals
      rw [chordStep_held t s h0] at h
      split_ifs at h with hc
      exact ⟨rfl, rfl, h0, by simpa using hc.1, hc.2⟩
  · intro s trace hs hall
    induction trace generalizing s with
    | nil =>
      intro r hr
      simp [chordRun] at hr
    | cons e rest ih =>
      obtain ⟨t, a, b⟩ := e
      intro r hr
      rw [chordRun] at hr
      rcases List.mem_cons.mp hr with rfl | hr
      · exact hsup t a b s hs
      · have hnotrel : ¬(a = false ∧ b = false) := by
          have := hall (t, a, b) (List.mem_cons_self _ _)
          simpa using this
        have hused : (chordStep t a b s).state.screenshotComboUsed = true := by
          by_contra hcon
          have hc : (chordStep t a b s).state.screenshotComboUsed = false := by
            simpa using hcon
          exact hnotrel ((hkeep t a b s hs).mp hc)
        exact ih (chordStep t a b s).state hused
          (fun e he => hall e (List.mem_cons_of_mem _ he)) r hr

/-- Witness for C9 (amended): with the used flag set, a tick with only
SET still held is suppressed, and a tick with both buttons released
clears the flag. -/
theorem chord_spec_witness :
    (chordStep 600 true false
      { screenshotHoldStart := 100, screenshotTaken := false
        screenshotComboUsed := true }).suppressed = true ∧
    ((chordStep 1300 false false
      { screenshotHoldStart := 100, screenshotTaken := true
        screenshotComboUsed := true }).state.screenshotComboUsed = false ↔
      ((false : Bool) = false ∧ (false : Bool) = false)) :=
  ⟨chord_spec.1 600 true false _ rfl, chord_spec.2.1 1300 false false _ rfl⟩

/-! The two hold-to-repeat debounce machines, one tick per millisecond
(millis() granularity).  A run models a press at time t0 with the raw
button LOW for the hold duration D (ticks t0 .. t0+D-1) and HIGH
afterwards. -/

/-- Events emitted by a debounce machine on one tick: the initial
confirmed action, or a hold repeat (the two are mutually exclusive). -/
structure DebounceTick where
  confirmed : Bool
  repeated : Bool
deriving DecidableEq, Repr

/-- State of the game-input hold-to-repeat machine (statics at lines
1654-1662 plus lastUpState, line 370; true = LOW = held), modelled for
the UP direction with the other directions and MID idle. -/
structure GameState where
  lastUp : Bool
  gameHoldStart : Nat
  gameLastRepeat : Nat
  gameHeldDir : Nat
  gameFirstPress : Bool
deriving DecidableEq, Repr

/-- One tick of the game-input machine (lines 1669-1727): press edges
re-arm the hold timer at the raw press time; a full release clears the
held direction; the first trigger comes 50 ms after the press
(debounce) and repeats come while holdLongEnough (more than 400 ms
after the press) at more than 150 ms since the last trigger. -/
def gameStep (t : Nat) (upHeld : Bool) (s : GameState) : GameState × DebounceTick :=
  let s1 := if upHeld ∧ ¬s.lastUp then
      { s with gameHoldStart := t, gameHeldDir := 1, gameFirstPress := true } else s
  let s2 := if ¬upHeld then { s1 with gameHeldDir := 0, gameFirstPress := true } else s1
  let holdLong := 0 < s2.gameHoldStart ∧ 400 < t - s2.gameHoldStart
  if 0 < s2.gameHeldDir then
    if s2.gameFirstPress ∧ 50 ≤ t - s2.gameHoldStart then
      ({ s2 with gameFirstPress := false, gameLastRepeat := t, lastUp := upHeld },
        ⟨true, false⟩)
    else if ¬s2.gameFirstPress ∧ holdLong ∧ 150 < t - s2.gameLastRepeat then
      ({ s2 with gameLastRepeat := t, lastUp := upHeld }, ⟨false, true⟩)
    else ({ s2 with lastUp := upHeld }, ⟨false, false⟩)
  else ({ s2 with lastUp := upHeld }, ⟨false, false⟩)

/-- Boot values of the game-machine statics (lines 1654-1657). -/
def gameInit : GameState :=
  { lastUp := false, gameHoldStart := 0, gameLastRepeat := 0, gameHeldDir := 0,
    gameFirstPress := true }

/-- Hold the button from time t0 for k milliseconds: state after the
held ticks plus the counts of confirmed and repeat events (ticks after
the release emit nothing, since a released button resets the held
direction before the trigger tests). -/
def gameHoldRun (t0 : Nat) : Nat → GameState × Nat × Nat
  | 0 => (gameInit, 0, 0)
  | k + 1 =>
    let p := gameHoldRun t0 k
    let r := gameStep (t0 + k) true p.1
    (r.1, p.2.1 + (if r.2.confirmed then 1 else 0),
      p.2.2 + (if r.2.repeated then 1 else 0))

/-- State of the UP/DOWN navigation machine (statics at lines 1999-2006
plus lastUpState; DOWN is modelled as never held, so line 2041 clears
holdStart exactly when UP is up). -/
structure UDState where
  lastUp : Bool
  upDebounceStart : Nat
  upDebounced : Bool
  upActed : Bool
  holdStart : Nat
  lastRepeat : Nat
deriving DecidableEq, Repr

/-- One tick of the UP/DOWN machine (lines 2011-2053, UP only, generic
context so repeatDelay = 150): a press edge restarts the 50 ms
debounce; completing the debounce sets holdStart to the completion
time; on release debounce/acted/holdStart are cleared; the trigger is
either the initial confirmed action (debounced and not yet acted) or a
repeat (held, debounced, holdLongEnough - more than 400 ms past
holdStart - and more than repeatDelay past lastRepeat), and any trigger
records lastRepeat := t. -/
def udStep (t : Nat) (upHeld : Bool) (s : UDState) : UDState × DebounceTick :=
  let s1 := if upHeld ∧ ¬s.lastUp then
      { s with upDebounceStart := t, upDebounced := false, upActed := false } else s
  let s2 := if upHeld ∧ ¬s1.upDebounced ∧ 50 ≤ t - s1.upDebounceStart then
      { s1 with upDebounced := true, holdStart := t } else s1
  let s3 := if ¬upHeld then { s2 with upDebounced := false, upActed := false } else s2
  let s4 := if ¬upHeld then { s3 with holdStart := 0 } else s3
  let holdLong := 0 < s4.holdStart ∧ 400 < t - s4.holdStart
  let confirm := s4.upDebounced ∧ ¬s4.upActed
  let rep := upHeld ∧ s4.upDebounced ∧ holdLong ∧ 150 < t - s4.lastRepeat
  if confirm ∨ rep then
    ({ s4 with upActed := true, lastRepeat := t, lastUp := upHeld },
      ⟨decide confirm, decide (¬confirm ∧ rep)⟩)
  else
    ({ s4 with lastUp := upHeld }, ⟨false, false⟩)

/-- Boot values of the UP/DOWN statics (all zero, lines 1999-2006). -/
def udInit : UDState :=
  { lastUp := false, upDebounceStart := 0, upDebounced := false, upActed := false,
    holdStart := 0, lastRepeat := 0 }

/-- Press UP at time 0 and hold for D milliseconds: state after the
held ticks plus the counts of confirmed and repeat events. -/
def udHoldRun : Nat → UDState × Nat × Nat
  | 0 => (udInit, 0, 0)
  | D + 1 =>
    let p := udHoldRun D
    let r := udStep D true p.1
    (r.1, p.2.1 + (if r.2.confirmed then 1 else 0),
      p.2.2 + (if r.2.repeated then 1 else 0))

/-! Closed forms for the canonical UP hold run: the machine waits
(debouncing) through ticks 0..49, confirms at tick 50 (which also sets
holdStart = 50 and lastRepeat = 50), and fires repeats at ticks
451, 602, 753, ... = 451 + 151k. -/

/-- The last trigger time after D held ticks (50 until the first
repeat at tick 451 has happened). -/
def udLastRep (D : Nat) : Nat :=
  if D ≤ 451 then 50 else 451 + 151 * ((D - 452) / 151)

/-- State while the 50 ms debounce is still running. -/
def udWaitState : UDState :=
  { lastUp := true, upDebounceStart := 0, upDebounced := false, upActed := false,
    holdStart := 0, lastRepeat := 0 }

/-- State after the confirmed action, with last trigger time r. -/
def udRunState (r : Nat) : UDState :=
  { lastUp := true, upDebounceStart := 0, upDebounced := true, upActed := true,
    holdStart := 50, lastRepeat := r }

/-- The machine state after D held ticks of the canonical run. -/
def udStateAt (D : Nat) : UDState :=
  if D = 0 then udInit
  else if D ≤ 50 then udWaitState
  else udRunState (udLastRep D)

/-- Confirmed events in a D ms hold: exactly one once the debounce
completes (tick 50 happens iff D > 50). -/
def udConfirms (D : Nat) : Nat := if 50 < D then 1 else 0

/-- Repeat events in a D ms hold: repeats at ticks 451 + 151k below D,
i.e. (D - 301) / 151 many (0 for D ≤ 451). -/
def udRepeats (D : Nat) : Nat := (D - 301) / 151

lemma udStateAt_eq_wait (D : Nat) (h1 : D ≠ 0) (h2 : D ≤ 50) :
    udStateAt D = udWaitState := by
  unfold udStateAt
  rw [if_neg h1, if_pos h2]

lemma udStateAt_eq_run (D : Nat) (h : 50 < D) :
    udStateAt D = udRunState (udLastRep D) := by
  unfold udStateAt
  rw [if_neg (by omega), if_neg (by omega)]

/-- While debouncing (t < 50) nothing fires and nothing changes. -/
lemma udStep_wait (t : Nat) (h : t < 50) :
    udStep t true udWaitState = (udWaitState, ⟨false, false⟩) := by
  unfold udStep udWaitState
  simp [Nat.not_le.mpr h]

/-- After confirmation, a tick without the repeat conditions changes
nothing. -/
lemma udStep_run_no (t r : Nat) (h : ¬(400 < t - 50 ∧ 150 < t - r)) :
    udStep t true (udRunState r) = (udRunState r, ⟨false, false⟩) := by
  unfold udStep udRunState
  simp
  omega

/-- After confirmation, a tick meeting the repeat conditions fires a
repeat and records the trigger time. -/
lemma udStep_run_yes (t r : Nat) (h4 : 400 < t - 50) (h1 : 150 < t - r) :
    udStep t true (udRunState r) = (udRunState t, ⟨false, true⟩) := by
  unfold udStep udRunState
  simp [h4, h1]

lemma div151 (k r : Nat) (hr : r < 151) : (151 * k + r) / 151 = k := by
  rw [Nat.mul_add_div (by norm_num)]
  rw [Nat.div_eq_of_lt hr]
  rfl

set_option maxRecDepth 4000

/-- The canonical UP hold run follows the closed forms. -/
lemma udHoldRun_char (D : Nat) :
    udHoldRun D = (udStateAt D, udConfirms D, udRepeats D) := by
  induction D with
  | zero => rfl
  | succ D ih =>
    simp only [udHoldRun]
    rw [ih]
    dsimp only
    by_cases h0 : D = 0
    · subst h0
      decide
    by_cases hA : D < 50
    · rw [udStateAt_eq_wait D h0 (by omega), udStep_wait D hA,
        udStateAt_eq_wait (D + 1) (by omega) (by omega)]
      unfold udConfirms udRepeats
      refine congrArg _ ?_
      have e1 : (if 50 < D then 1 else 0) = (if 50 < D + 1 then 1 else 0) := by
        split_ifs <;> omega
      have e2 : (D - 301) / 151 = (D + 1 - 301) / 151 := by
        rw [show D - 301 = 0 by omega, show D + 1 - 301 = 0 by omega]
      simp [e1, e2]
    by_cases hB : D = 50
    · subst hB
      decide
    by_cases hC : D ≤ 450
    · have h51 : 50 < D := by omega
      have hlr : udLastRep D = 50 := by
        unfold udLastRep
        rw [if_pos (by omega)]
      have hlr1 : udLastRep (D + 1) = 50 := by
        unfold udLastRep
        rw [if_pos (by omega)]
      rw [udStateAt_eq_run D h51, hlr, udStep_run_no D 50 (by omega),
        udStateAt_eq_run (D + 1) (by omega), hlr1]
      unfold udConfirms udRepeats
      have e1 : (if 50 < D then 1 else 0) = (if 50 < D + 1 then 1 else 0) := by
        split_ifs <;> omega
      have e2 : (D - 301) / 151 = (D + 1 - 301) / 151 := by
        rw [Nat.div_eq_of_lt (by omega), Nat.div_eq_of_lt (by omega)]
      simp [e1, e2]
    by_cases hD : D = 451
    · subst hD
      decide
    have h452 : 452 ≤ D := by omega
    obtain ⟨k, r, hkr, hr⟩ : ∃ k r, D - 452 = 151 * k + r ∧ r < 151 :=
      ⟨(D - 452) / 151, (D - 452) % 151,
        by rw [Nat.div_add_mod], Nat.mod_lt _ (by norm_num)⟩
    have hlr : udLastRep D = 451 + 151 * k := by
      unfold udLastRep
      rw [if_neg (by omega), hkr, div151 k r hr]
    have hconf : (if 50 < D then 1 else 0) = (if 50 < D + 1 then 1 else 0) := by
      split_ifs <;> omega
    by_cases hfire : r = 150
    · subst hfire
      have hlr1 : udLastRep (D + 1) = D := by
        unfold udLastRep
        rw [if_neg (by omega), show D + 1 - 452 = 151 * (k + 1) + 0 by omega,
          div151 (k + 1) 0 (by norm_num)]
        omega
      rw [udStateAt_eq_run D (by omega), hlr,
        udStep_run_yes D (451 + 151 * k) (by omega) (by omega),
        udStateAt_eq_run (D + 1) (by omega), hlr1]
      unfold udConfirms udRepeats
      have e2 : (D - 301) / 151 + 1 = (D + 1 - 301) / 151 := by
        rw [show D - 301 = 151 * (k + 1) + 150 by omega,
          show D + 1 - 301 = 151 * (k + 2) + 0 by omega,
          div151 (k + 1) 150 (by norm_num), div151 (k + 2) 0 (by norm_num)]
      simp [hconf, e2]
    · have hlr1 : udLastRep (D + 1) = 451 + 151 * k := by
        unfold udLastRep
        rw [if_neg (by omega), show D + 1 - 452 = 151 * k + (r + 1) by omega,
          div151 k (r + 1) (by omega)]
      rw [udStateAt_eq_run D (by omega), hlr,
        udStep_run_no D (451 + 151 * k) (by omega),
        udStateAt_eq_run (D + 1) (by omega), hlr1]
      unfold udConfirms udRepeats
      have e2 : (D - 301) / 151 = (D + 1 - 301) / 151 := by
        rw [show D - 301 = 151 * (k + 1) + r by omega,
          show D + 1 - 301 = 151 * (k + 1) + (r + 1) by omega,
          div151 (k + 1) r (by omega), div151 (k + 1) (r + 1) (by omega)]
      simp [hconf, e2]

/-- C3 counterexample: the spec's repeat count floor((D - I) / R) is
wrong for both cited machines.  The game-input machine anchors the hold
timer at the raw press and its last-trigger time at the 50 ms
confirmation, so a 600 ms hold (press at t0 = 100) yields repeats at
501 and 652 ms after boot - 1 confirmed + 2 repeats = 3 events, not the
claimed 2.  The UP/DOWN machine anchors the hold timer at debounce
completion (t = 50), so its first repeat comes at tick 451: a 452 ms
hold already yields 1 repeat although floor((452 - 400) / 150) = 0. -/
theorem debounce_formula_counterexample :
    (gameHoldRun 100 600).2.1 = 1 ∧ (gameHoldRun 100 600).2.2 = 2 ∧
    (600 - 400) / 150 = 1 ∧
    (udHoldRun 452).2.2 = 1 ∧ (452 - 400) / 150 = 0 := by
  decide

/-- C3 (amended): a button held for D ms (1 ms ticks) produces exactly
one confirmed event once the 50 ms debounce elapses (none if D ≤ 50)
and no event after release.  The repeat counts differ from the spec's
floor((D - I) / R): the UP/DOWN navigation machine fires repeats at
ticks 451 + 151k (the hold timer starts at debounce completion and the
first repeat is already due one tick after the 400 ms hold delay), so a
D ms hold yields (D - 301) / 151 repeats in integer arithmetic - still
1 confirmed + 1 repeat = 2 events for the 600 ms scenario; the
game-input machine anchors the hold timer at the raw press and fires
repeats from 401 ms after the press, so its 600 ms hold yields
1 confirmed + 2 repeats = 3 events. -/
theorem debounce_repeat_spec :
    (∀ D : Nat, (udHoldRun D).2.1 = (if 50 < D then 1 else 0) ∧
      (udHoldRun D).2.2 = (D - 301) / 151) ∧
    (∀ (t : Nat) (s : UDState), (udStep t false s).2 = ⟨false, false⟩) ∧
    ((udHoldRun 600).2.1 = 1 ∧ (udHoldRun 600).2.2 = 1) ∧
    ((gameHoldRun 100 600).2.1 = 1 ∧ (gameHoldRun 100 600).2.2 = 2) := by
  refine ⟨?_, ?_, by decide, by decide⟩
  · intro D
    rw [udHoldRun_char D]
    exact ⟨rfl, rfl⟩
  · intro t s
    unfold udStep
    simp

end ArduinOS
